import Mathlib

/-!
Shallow embedding of `src/mpc_view/view/scene/items/car.py` (class `CarModel`).

The semantic state of the Qt scene-graph object is captured as a record of the
fields that the control-relevant methods read or write: the item position
(`self.x()`, `self.y()`), the item rotation and the trailer's relative rotation
(Qt stores degrees), the front wheels' steering rotation (degrees), the widths
of the body / trailer / bounding-circle rectangles, the trailer control-point
position, the cruise speed, and the constructed MPC solver instance.  Purely
presentational data (pens, brushes, wheel rectangles' own positions) carry no
behavioral contract and are omitted.

The class `MPCCasadi` (module `mpc.mpc_casadi`) and the static method
`MPCBlackBox.trailer_model` (module `mpc.mpc_back_box`) are code of this
repository that is not under `src/`; they are modelled from the spec where a
claim needs them.  The numeric behavior of `MPCCasadi.optimize_controls` is an
external nonlinear solve, so `predict`/`move` are parametrized by a solver
function `Solver`; a raised `ValueError` (no feasible solution) is modelled as
`none`.
-/

/-- `math.radians`: degrees to radians. -/
noncomputable def radians (d : ℝ) : ℝ := d * (Real.pi / 180)

/-- `math.degrees`: radians to degrees. -/
noncomputable def degrees (r : ℝ) : ℝ := r * (180 / Real.pi)

/-- The 4-component vehicle state `np.array([x, y, heading, trailer_heading])`
(position in meters, headings in radians). -/
structure State4 where
  x : ℝ
  y : ℝ
  th1 : ℝ
  th3 : ℝ

/-- Construction parameters of an `mpc_casadi.MPCCasadi` solver instance
(the class itself is outside `src/`; the instance is identified by the
arguments `CarModel.__init__` / `rebuild_mpc` pass to its constructor). -/
structure MPCCasadi where
  steps : Nat
  max_iter : Nat
  soft_constrain : Bool
  circles_num : Nat
  path_len : Nat
deriving DecidableEq

/-- The argument tuple `CarModel.predict` hands to
`self.mpc.optimize_controls`, in source order. -/
structure SolveArgs where
  dt : ℝ
  path : List (ℝ × ℝ)
  state : State4
  steering : ℝ
  speed : ℝ
  wheel_base : ℝ
  max_rate : ℝ
  max_angle : ℝ
  max_trailer_angle : ℝ
  trailer_len : ℝ
  trailer_offset : ℝ
  ctrl_point : ℝ × ℝ
  xtrack_weight : ℝ
  heading_weight : ℝ
  circles_obstacle : List (ℝ × ℝ × ℝ)
  radius : ℝ

/-- The value returned by `optimize_controls`: a tuple
`(states, control_angles)` (the `HorizonSolution` of the spec). -/
abbrev Solution := List State4 × List ℝ

/-- External solve behavior of `MPCCasadi.optimize_controls`:
`none` models the `ValueError` raised when no feasible solution exists. -/
abbrev Solver := SolveArgs → Option Solution

/-- Semantic state of a `CarModel` scene item. -/
structure CarModel where
  posX : ℝ
  posY : ℝ
  /-- `self.rotation()`, degrees (tractor heading). -/
  rotation : ℝ
  /-- `self.trailer.rotation()`, degrees, relative to the tractor. -/
  trailerRot : ℝ
  /-- `self.front_left_wheel.rotation()`, degrees (applied steering). -/
  frontLeftWheelRot : ℝ
  /-- `self.front_right_wheel.rotation()`, degrees. -/
  frontRightWheelRot : ℝ
  /-- `self.body.rect().width()` — the wheel base. -/
  bodyRectWidth : ℝ
  /-- `self.trailer.rect().width()` — the trailer length. -/
  trailerRectWidth : ℝ
  /-- `self.ctrl_point.pos()` in the trailer frame. -/
  ctrlPointPosX : ℝ
  ctrlPointPosY : ℝ
  /-- `self.circle.rect().width()` — twice the bounding radius. -/
  circleRectWidth : ℝ
  /-- `self.speed` (set once to `SPEED` in `__init__`). -/
  speed : ℝ
  /-- `self.mpc`, the constructed solver instance. -/
  mpc : MPCCasadi

/-- Class constant `PERIOD`. -/
noncomputable def CarModel.PERIOD : ℝ := 10

/-- Class constant `MAX_ANGLE = math.radians(25.)`. -/
noncomputable def CarModel.MAX_ANGLE : ℝ := radians 25

/-- Class constant `MAX_RATE = math.radians(30)`. -/
noncomputable def CarModel.MAX_RATE : ℝ := radians 30

/-- Class constant `MAX_TRAILER_ANGLE = math.radians(30)`. -/
noncomputable def CarModel.MAX_TRAILER_ANGLE : ℝ := radians 30

/-- Class constant `WHEEL_BASE = 5`. -/
noncomputable def CarModel.WHEEL_BASE : ℝ := 5

/-- Class constant `TRAILER_LEN = 5`. -/
noncomputable def CarModel.TRAILER_LEN : ℝ := 5

/-- Class constant `TRAILER_OFFSET = 0.`. -/
noncomputable def CarModel.TRAILER_OFFSET : ℝ := 0

/-- Class constant `TRAILER_CTRL_POINT = [0., 3.]`. -/
noncomputable def CarModel.TRAILER_CTRL_POINT : ℝ × ℝ := (0, 3)

/-- Class constant `RADIUS = 5.`. -/
noncomputable def CarModel.RADIUS : ℝ := 5

/-- Class constant `SPEED = 5`. -/
noncomputable def CarModel.SPEED : ℝ := 5

/-- Class constant `XTRACK_WEIGHT = 1.`. -/
noncomputable def CarModel.XTRACK_WEIGHT : ℝ := 1

/-- Class constant `HEADING_WEIGHT = 30`. -/
noncomputable def CarModel.HEADING_WEIGHT : ℝ := 30

/-- Class constant `DT = 0.1` — note this is a stored class constant, distinct
from the `dt` argument of `move`. -/
noncomputable def CarModel.DT : ℝ := 0.1

/-- `CarModel.__init__`: the semantic fields after construction.  Qt items
start at position (0,0) and rotation 0; `self.speed = self.SPEED`; the body
rect has width `WHEEL_BASE`; the trailer rect has width `TRAILER_LEN`; the
control point is placed at `(TRAILER_CTRL_POINT[0] - TRAILER_LEN,
TRAILER_CTRL_POINT[1])`; the circle rect has width `2 * RADIUS`; `self.mpc`
is a fresh `MPCCasadi(steps, max_iter, soft_constrain, circles_num,
path_len)`.  The `dt` argument is accepted and, as in the source, never
used. -/
noncomputable def CarModel.init (circles_num path_len : Nat) (dt : ℝ)
    (steps max_iter : Nat) (soft_constrain : Bool) : CarModel :=
  { posX := 0
    posY := 0
    rotation := 0
    trailerRot := 0
    frontLeftWheelRot := 0
    frontRightWheelRot := 0
    bodyRectWidth := CarModel.WHEEL_BASE
    trailerRectWidth := CarModel.TRAILER_LEN
    ctrlPointPosX := CarModel.TRAILER_CTRL_POINT.1 - CarModel.TRAILER_LEN
    ctrlPointPosY := CarModel.TRAILER_CTRL_POINT.2
    circleRectWidth := 2 * CarModel.RADIUS
    speed := CarModel.SPEED
    mpc := ⟨steps, max_iter, soft_constrain, circles_num, path_len⟩ }

/-- `CarModel.set_wheel_base`: `rect = self.body.rect(); rect.setWidth(w);
self.body.setRect(rect)` — only the body rect's width changes (the wheel
repositioning is presentational).  `self.mpc` is not touched. -/
def CarModel.set_wheel_base (c : CarModel) (wheel_base : ℝ) : CarModel :=
  { c with bodyRectWidth := wheel_base }

/-- `CarModel.get_wheel_base`: `return self.body.rect().width()`. -/
def CarModel.get_wheel_base (c : CarModel) : ℝ := c.bodyRectWidth

/-- `CarModel.set_trailer_len`: `self.trailer.setRect(-l, -TRAILER_WIDTH/2, l,
TRAILER_WIDTH)` — the trailer rect's width becomes `l` (the wheel
repositioning is presentational).  `self.mpc` is not touched. -/
def CarModel.set_trailer_len (c : CarModel) (trailer_len : ℝ) : CarModel :=
  { c with trailerRectWidth := trailer_len }

/-- `CarModel.get_trailer_len`: `return self.trailer.rect().width()`. -/
def CarModel.get_trailer_len (c : CarModel) : ℝ := c.trailerRectWidth

/-- `CarModel.rebuild_mpc`: `self.mpc = mpc_casadi.MPCCasadi(steps=...,
max_iter=..., soft_constrain=..., circles_num=..., path_len=...)`.  As in the
source, the `dt` argument is accepted and never forwarded. -/
def CarModel.rebuild_mpc (c : CarModel) (circles_num path_len : Nat)
    (dt : ℝ) (steps max_iter : Nat) (soft_constrain : Bool) : CarModel :=
  { c with mpc := ⟨steps, max_iter, soft_constrain, circles_num, path_len⟩ }

/-- The state vector built in `predict` and `move`:
`np.array([self.x(), self.y(), math.radians(heading),
math.radians(heading + self.trailer.rotation())])`. -/
noncomputable def CarModel.stateOf (c : CarModel) : State4 :=
  ⟨c.posX, c.posY, radians c.rotation, radians (c.rotation + c.trailerRot)⟩

/-- The arguments `CarModel.predict` passes to `optimize_controls`, in source
order.  Note the first argument is the class constant `self.DT`, not a
caller-supplied timestep: `predict` takes no `dt` parameter at all. -/
noncomputable def CarModel.solveArgs (c : CarModel) (path : List (ℝ × ℝ))
    (circles_obstacle : List (ℝ × ℝ × ℝ)) : SolveArgs :=
  { dt := CarModel.DT
    path := path
    state := c.stateOf
    steering := radians c.frontLeftWheelRot
    speed := c.speed
    wheel_base := c.bodyRectWidth
    max_rate := CarModel.MAX_RATE
    max_angle := CarModel.MAX_ANGLE
    max_trailer_angle := CarModel.MAX_TRAILER_ANGLE
    trailer_len := c.trailerRectWidth
    trailer_offset := CarModel.TRAILER_OFFSET
    ctrl_point := (c.trailerRectWidth - c.ctrlPointPosX, c.ctrlPointPosY)
    xtrack_weight := CarModel.XTRACK_WEIGHT
    heading_weight := CarModel.HEADING_WEIGHT
    circles_obstacle := circles_obstacle
    radius := c.circleRectWidth / 2 }

/-- `CarModel.predict`: `return self.mpc.optimize_controls(self.DT, path,
state, ...)`.  The solve itself is external (module `mpc.mpc_casadi` is not
under `src/`), so it is a parameter. -/
noncomputable def CarModel.predict (c : CarModel) (solver : Solver)
    (path : List (ℝ × ℝ)) (circles_obstacle : List (ℝ × ℝ × ℝ)) :
    Option Solution :=
  solver (c.solveArgs path circles_obstacle)

/-- Modelled from the spec: `MPCBlackBox.trailer_model` (module
`mpc.mpc_back_box`) is not under `src/`.  Spec §4.1: the tractor follows a
bicycle model — heading rate `(speed / wheelbase) * tan(steering_angle)`,
position rate `speed * (cos th1, sin th1)`; the trailer heading rate is the
standard articulated-vehicle off-axle hitch relation, depending on the
relative angle between tractor and trailer heading, the trailer length, the
hitch offset, and the tractor's own heading rate and speed, with the
degenerate term at zero relative angle being `cos` of that angle (no guard
branch).  The source takes the first four components (`[:4]`); the model
returns exactly those. -/
noncomputable def trailer_model (s : State4) (speed steering_angle
    wheel_base trailer_len trailer_offset : ℝ) : State4 :=
  let w := speed * Real.tan steering_angle / wheel_base
  ⟨speed * Real.cos s.th1,
   speed * Real.sin s.th1,
   w,
   (speed * Real.sin (s.th1 - s.th3)
     - trailer_offset * w * Real.cos (s.th1 - s.th3)) / trailer_len⟩

/-- The first predicted control extracted in `move`:
`steering_angle = float(solution[1][1])`.  Per spec §4.2 the control sequence
is pinned at index 0 to the currently applied steering (for rate-limit
continuity), so index 1 is the first *predicted* control; the spec guarantees
the sequence has horizon length plus a bookkeeping offset, hence at least two
entries, so the default of `getD` is never taken on a real solution. -/
def firstPredictedControl (solution : Solution) : ℝ := solution.2.getD 1 0

/-- The success branch of `CarModel.move` (lines 329–343): Euler-advance the
state read before the update, using the first predicted control, the constant
cruise speed, the current wheel base and trailer length, and hitch offset 0;
then store the steering on both front wheels (degrees), the position, the
tractor rotation (degrees) and the trailer's relative rotation
(`degrees(state[3] - state[2])`). -/
noncomputable def CarModel.moveUpdate (c : CarModel) (dt : ℝ)
    (solution : Solution) : CarModel :=
  let state := c.stateOf
  let steering_angle := firstPredictedControl solution
  let d := trailer_model state c.speed steering_angle
    c.bodyRectWidth c.trailerRectWidth 0
  { c with
    frontLeftWheelRot := degrees steering_angle
    frontRightWheelRot := degrees steering_angle
    posX := state.x + d.x * dt
    posY := state.y + d.y * dt
    rotation := degrees (state.th1 + d.th1 * dt)
    trailerRot :=
      degrees ((state.th3 + d.th3 * dt) - (state.th1 + d.th1 * dt)) }

/-- `CarModel.move`: one control tick.  `predict` is called on the line path;
a `ValueError` from the solve (modelled `none`) is caught, logged and `None`
is returned with no state mutated; on success the state is advanced by one
explicit-Euler step of duration `dt` and the full solution is returned. -/
noncomputable def CarModel.move (c : CarModel) (solver : Solver) (dt : ℝ)
    (line : (ℝ × ℝ) × (ℝ × ℝ)) (circles_obstacle : List (ℝ × ℝ × ℝ)) :
    CarModel × Option Solution :=
  match c.predict solver [line.1, line.2] circles_obstacle with
  | none => (c, none)
  | some solution => (c.moveUpdate dt solution, some solution)

/-! ## Helper lemmas and concrete instances -/

theorem radians_degrees (r : ℝ) : radians (degrees r) = r := by
  unfold radians degrees
  field_simp

theorem radians_degrees_add (a b : ℝ) :
    radians (degrees a + degrees b) = a + b := by
  unfold radians degrees
  field_simp
  ring

theorem degrees_add_sub (a b : ℝ) :
    degrees a + degrees (b - a) = degrees b := by
  unfold degrees
  ring

theorem move_eq_of_none (c : CarModel) (solver : Solver) (dt : ℝ)
    (line : (ℝ × ℝ) × (ℝ × ℝ)) (obs : List (ℝ × ℝ × ℝ))
    (h : c.predict solver [line.1, line.2] obs = none) :
    c.move solver dt line obs = (c, none) := by
  unfold CarModel.move
  rw [h]

theorem move_eq_of_some (c : CarModel) (solver : Solver) (dt : ℝ)
    (line : (ℝ × ℝ) × (ℝ × ℝ)) (obs : List (ℝ × ℝ × ℝ)) (sol : Solution)
    (h : c.predict solver [line.1, line.2] obs = some sol) :
    c.move solver dt line obs = (c.moveUpdate dt sol, some sol) := by
  unfold CarModel.move
  rw [h]

/-- A concrete vehicle, as built by `CarModel.__init__`. -/
noncomputable def carC0 : CarModel := CarModel.init 1 2 0.1 5 10 true

/-- A concrete reference line segment, A = (0,0), B = (100,0). -/
noncomputable def line0 : (ℝ × ℝ) × (ℝ × ℝ) := ((0, 0), (100, 0))

/-- A concrete horizon solution; its control sequence is
`[current steering, first predicted control]`. -/
noncomputable def sol0 : Solution := ([], [9, 0.2])

/-- A second concrete horizon solution agreeing with `sol0` at index 1. -/
noncomputable def sol1 : Solution := ([⟨0, 0, 0, 0⟩], [7, 0.2, 5])

/-- A solver behavior that always reports infeasibility (`ValueError`). -/
noncomputable def failSolver : Solver := fun _ => none

/-- A solver behavior that always succeeds with `sol0`. -/
noncomputable def okSolver : Solver := fun _ => some sol0

/-- A solver behavior that always succeeds with `sol1`. -/
noncomputable def okSolver1 : Solver := fun _ => some sol1

/-- A solver behavior that succeeds exactly when the `dt` it receives is
`0.2`; used to observe which timestep `move` hands to the solve. -/
noncomputable def probeSolver : Solver :=
  fun a => if a.dt = (0.2 : ℝ) then some sol0 else none

/-! ## Claims -/

/-- C1: if the solve raises a failure (no feasible solution), `move` returns
no solution and the true state — position, tractor heading, trailer heading,
applied steering — after the call equals its value before the call exactly. -/
theorem carModel_move_failure_noop (c : CarModel) (solver : Solver) (dt : ℝ)
    (line : (ℝ × ℝ) × (ℝ × ℝ)) (obs : List (ℝ × ℝ × ℝ))
    (h : c.predict solver [line.1, line.2] obs = none) :
    (c.move solver dt line obs).2 = none ∧
    (c.move solver dt line obs).1 = c := by
  rw [move_eq_of_none c solver dt line obs h]
  exact ⟨rfl, rfl⟩

theorem carModel_move_failure_noop_witness :
    (carC0.move failSolver 0.1 line0 []).2 = none ∧
    (carC0.move failSolver 0.1 line0 []).1 = carC0 :=
  carModel_move_failure_noop carC0 failSolver 0.1 line0 [] rfl

/-- C7: on a successful tick, `move` returns the full horizon solution
produced by the solve, not merely the applied control. -/
theorem carModel_move_returns_full_solution (c : CarModel) (solver : Solver)
    (dt : ℝ) (line : (ℝ × ℝ) × (ℝ × ℝ)) (obs : List (ℝ × ℝ × ℝ))
    (sol : Solution)
    (h : c.predict solver [line.1, line.2] obs = some sol) :
    (c.move solver dt line obs).2 = some sol := by
  rw [move_eq_of_some c solver dt line obs sol h]

theorem carModel_move_returns_full_solution_witness :
    (carC0.move okSolver 0.1 line0 []).2 = some sol0 :=
  carModel_move_returns_full_solution carC0 okSolver 0.1 line0 [] sol0 rfl

/-- C9: the geometry accessors round-trip: for positive `w`,
`get_wheel_base` returns `w` after `set_wheel_base w`, and for positive `l`,
`get_trailer_len` returns `l` after `set_trailer_len l`. -/
theorem carModel_geometry_roundtrip (c : CarModel) (w l : ℝ)
    (hw : 0 < w) (hl : 0 < l) :
    (c.set_wheel_base w).get_wheel_base = w ∧
    (c.set_trailer_len l).get_trailer_len = l :=
  ⟨rfl, rfl⟩

theorem carModel_geometry_roundtrip_witness :
    (carC0.set_wheel_base 7).get_wheel_base = 7 ∧
    (carC0.set_trailer_len 9).get_trailer_len = 9 :=
  carModel_geometry_roundtrip carC0 7 9 (by norm_num) (by norm_num)

/-- C10: `move` — succeeding or failing — leaves the vehicle geometry (wheel
base, trailer length, control-point offset, bounding-circle width), the
cruise speed and the constructed MPC solver instance unchanged: only the
pose and the wheel steering rotations are written. -/
theorem carModel_move_frame (c : CarModel) (solver : Solver) (dt : ℝ)
    (line : (ℝ × ℝ) × (ℝ × ℝ)) (obs : List (ℝ × ℝ × ℝ)) :
    (c.move solver dt line obs).1.bodyRectWidth = c.bodyRectWidth ∧
    (c.move solver dt line obs).1.trailerRectWidth = c.trailerRectWidth ∧
    (c.move solver dt line obs).1.ctrlPointPosX = c.ctrlPointPosX ∧
    (c.move solver dt line obs).1.ctrlPointPosY = c.ctrlPointPosY ∧
    (c.move solver dt line obs).1.circleRectWidth = c.circleRectWidth ∧
    (c.move solver dt line obs).1.speed = c.speed ∧
    (c.move solver dt line obs).1.mpc = c.mpc := by
  cases h : c.predict solver [line.1, line.2] obs with
  | none =>
      rw [move_eq_of_none c solver dt line obs h]
      exact ⟨rfl, rfl, rfl, rfl, rfl, rfl, rfl⟩
  | some sol =>
      rw [move_eq_of_some c solver dt line obs sol h]
      exact ⟨rfl, rfl, rfl, rfl, rfl, rfl, rfl⟩

/-- C2: on a successful tick, the new true state equals the old (pre-update)
state plus `dt` times the kinematic-model derivative evaluated at that
pre-update state with the newly chosen steering angle and the constant cruise
speed — exactly one explicit-Euler step. -/
theorem carModel_move_euler_step (c : CarModel) (solver : Solver) (dt : ℝ)
    (line : (ℝ × ℝ) × (ℝ × ℝ)) (obs : List (ℝ × ℝ × ℝ)) (sol : Solution)
    (h : c.predict solver [line.1, line.2] obs = some sol) :
    ((c.move solver dt line obs).1).stateOf = State4.mk
      (c.stateOf.x + (trailer_model c.stateOf c.speed
        (firstPredictedControl sol) c.bodyRectWidth c.trailerRectWidth 0).x
        * dt)
      (c.stateOf.y + (trailer_model c.stateOf c.speed
        (firstPredictedControl sol) c.bodyRectWidth c.trailerRectWidth 0).y
        * dt)
      (c.stateOf.th1 + (trailer_model c.stateOf c.speed
        (firstPredictedControl sol) c.bodyRectWidth c.trailerRectWidth 0).th1
        * dt)
      (c.stateOf.th3 + (trailer_model c.stateOf c.speed
        (firstPredictedControl sol) c.bodyRectWidth c.trailerRectWidth 0).th3
        * dt) := by
  rw [move_eq_of_some c solver dt line obs sol h]
  unfold CarModel.moveUpdate CarModel.stateOf
  simp only [State4.mk.injEq]
  refine ⟨trivial, trivial, ?_, ?_⟩
  · rw [radians_degrees]
  · rw [radians_degrees_add]
    ring

theorem carModel_move_euler_step_witness :
    ((carC0.move okSolver 0.1 line0 []).1).stateOf = State4.mk
      (carC0.stateOf.x + (trailer_model carC0.stateOf carC0.speed
        (firstPredictedControl sol0) carC0.bodyRectWidth
        carC0.trailerRectWidth 0).x * 0.1)
      (carC0.stateOf.y + (trailer_model carC0.stateOf carC0.speed
        (firstPredictedControl sol0) carC0.bodyRectWidth
        carC0.trailerRectWidth 0).y * 0.1)
      (carC0.stateOf.th1 + (trailer_model carC0.stateOf carC0.speed
        (firstPredictedControl sol0) carC0.bodyRectWidth
        carC0.trailerRectWidth 0).th1 * 0.1)
      (carC0.stateOf.th3 + (trailer_model carC0.stateOf carC0.speed
        (firstPredictedControl sol0) carC0.bodyRectWidth
        carC0.trailerRectWidth 0).th3 * 0.1) :=
  carModel_move_euler_step carC0 okSolver 0.1 line0 [] sol0 rfl

/-- C3: on a successful tick, the steering used to advance the true state and
applied as the visible wheel orientation is the first predicted control of
the returned solution (`solution[1][1]`; index 0 of the control sequence is
pinned to the currently applied steering per spec §4.2), and no other
predicted control affects the true state: two solutions agreeing on that one
entry produce the same updated vehicle. -/
theorem carModel_move_applies_first_predicted (c : CarModel)
    (solver solver' : Solver) (dt : ℝ) (line : (ℝ × ℝ) × (ℝ × ℝ))
    (obs : List (ℝ × ℝ × ℝ)) (sol sol' : Solution)
    (h : c.predict solver [line.1, line.2] obs = some sol)
    (h' : c.predict solver' [line.1, line.2] obs = some sol')
    (hc : firstPredictedControl sol = firstPredictedControl sol') :
    (c.move solver dt line obs).1.frontLeftWheelRot
      = degrees (firstPredictedControl sol) ∧
    (c.move solver dt line obs).1.frontRightWheelRot
      = degrees (firstPredictedControl sol) ∧
    (c.move solver dt line obs).1 = (c.move solver' dt line obs).1 := by
  rw [move_eq_of_some c solver dt line obs sol h,
    move_eq_of_some c solver' dt line obs sol' h']
  refine ⟨rfl, rfl, ?_⟩
  unfold CarModel.moveUpdate
  rw [hc]

theorem carModel_move_applies_first_predicted_witness :
    (carC0.move okSolver 0.1 line0 []).1.frontLeftWheelRot
      = degrees (firstPredictedControl sol0) ∧
    (carC0.move okSolver 0.1 line0 []).1.frontRightWheelRot
      = degrees (firstPredictedControl sol0) ∧
    (carC0.move okSolver 0.1 line0 []).1
      = (carC0.move okSolver1 0.1 line0 []).1 :=
  carModel_move_applies_first_predicted carC0 okSolver okSolver1 0.1 line0 []
    sol0 sol1 rfl rfl rfl

/-- C4, counterexample: the horizon problem is *not* built with the caller's
timestep.  The arguments `move` hands to the solve carry the stored class
constant `DT = 0.1`; a solver that succeeds exactly when it receives `dt =
0.2` still reports no solution on a tick whose caller supplied `dt = 0.2`. -/
theorem carModel_solver_dt_counterexample :
    (carC0.solveArgs [line0.1, line0.2] []).dt = CarModel.DT ∧
    CarModel.DT ≠ (0.2 : ℝ) ∧
    (carC0.move probeSolver 0.2 line0 []).2 = none := by
  have hne : (carC0.solveArgs [line0.1, line0.2] []).dt ≠ (0.2 : ℝ) := by
    show (0.1 : ℝ) ≠ (0.2 : ℝ)
    norm_num
  refine ⟨rfl, ?_, ?_⟩
  · show (0.1 : ℝ) ≠ (0.2 : ℝ)
    norm_num
  · have hp : carC0.predict probeSolver [line0.1, line0.2] [] = none := by
      show (if (carC0.solveArgs [line0.1, line0.2] []).dt = (0.2 : ℝ)
        then some sol0 else none) = none
      exact if_neg hne
    rw [move_eq_of_none carC0 probeSolver 0.2 line0 [] hp]

/-- C4, amended: the `dt` supplied by the caller to `move` is used only for
the explicit-Euler advance of the true state; the optimization problem is
always built and solved with the stored class constant `DT`, whatever the
caller passes. -/
theorem carModel_dt_split (c : CarModel) (solver : Solver) (dt : ℝ)
    (line : (ℝ × ℝ) × (ℝ × ℝ)) (obs : List (ℝ × ℝ × ℝ)) (sol : Solution)
    (h : c.predict solver [line.1, line.2] obs = some sol) :
    (c.solveArgs [line.1, line.2] obs).dt = CarModel.DT ∧
    (c.move solver dt line obs).1.posX = c.stateOf.x +
      (trailer_model c.stateOf c.speed (firstPredictedControl sol)
        c.bodyRectWidth c.trailerRectWidth 0).x * dt := by
  refine ⟨rfl, ?_⟩
  rw [move_eq_of_some c solver dt line obs sol h]
  rfl

theorem carModel_dt_split_witness :
    (carC0.solveArgs [line0.1, line0.2] []).dt = CarModel.DT ∧
    (carC0.move okSolver 0.3 line0 []).1.posX = carC0.stateOf.x +
      (trailer_model carC0.stateOf carC0.speed (firstPredictedControl sol0)
        carC0.bodyRectWidth carC0.trailerRectWidth 0).x * 0.3 :=
  carModel_dt_split carC0 okSolver 0.3 line0 [] sol0 rfl

/-- C5, counterexample: an explicit wheelbase change (and likewise a
trailer-length change) visibly alters the geometry yet leaves `self.mpc`
exactly as it was — the in-flight solver instance is *not* invalidated and no
fresh solver model is forced. -/
theorem carModel_setter_keeps_solver_counterexample :
    (carC0.set_wheel_base 7).mpc = carC0.mpc ∧
    (carC0.set_trailer_len 9).mpc = carC0.mpc ∧
    (carC0.set_wheel_base 7).get_wheel_base ≠ carC0.get_wheel_base ∧
    (carC0.set_trailer_len 9).get_trailer_len ≠ carC0.get_trailer_len := by
  refine ⟨rfl, rfl, ?_, ?_⟩
  · show (7 : ℝ) ≠ CarModel.WHEEL_BASE
    unfold CarModel.WHEEL_BASE
    norm_num
  · show (9 : ℝ) ≠ CarModel.TRAILER_LEN
    unfold CarModel.TRAILER_LEN
    norm_num

/-- C5, amended: the geometry setters update only the geometry and never
touch the stored solver instance; a fresh solver model is installed only by
an explicit `rebuild_mpc` call, which constructs a new `MPCCasadi` from its
arguments. -/
theorem carModel_solver_rebuild_only (c : CarModel) (w l : ℝ)
    (cn pl : Nat) (dtv : ℝ) (st mi : Nat) (sc : Bool) :
    (c.set_wheel_base w).mpc = c.mpc ∧
    (c.set_trailer_len l).mpc = c.mpc ∧
    (c.rebuild_mpc cn pl dtv st mi sc).mpc = MPCCasadi.mk st mi sc cn pl :=
  ⟨rfl, rfl, rfl⟩

/-- C6, counterexample: at zero steering but nonzero articulation — here the
relative angle is π/6, which is within `MAX_TRAILER_ANGLE` — the derivative's
trailer heading rate is not zero, refuting the claim for arbitrary valid
states. -/
theorem trailer_model_articulation_counterexample :
    |(0 : ℝ) - Real.pi / 6| ≤ CarModel.MAX_TRAILER_ANGLE ∧
    (trailer_model ⟨0, 0, 0, Real.pi / 6⟩ 5 0 5 5 0).th3 ≠ 0 := by
  have hmax : CarModel.MAX_TRAILER_ANGLE = Real.pi / 6 := by
    unfold CarModel.MAX_TRAILER_ANGLE radians
    ring
  constructor
  · rw [hmax, zero_sub, abs_neg,
      abs_of_nonneg (by positivity : (0 : ℝ) ≤ Real.pi / 6)]
  · show (5 * Real.sin ((0 : ℝ) - Real.pi / 6)
      - 0 * (5 * Real.tan 0 / 5) * Real.cos ((0 : ℝ) - Real.pi / 6)) / 5 ≠ 0
    rw [zero_sub, Real.sin_neg, Real.sin_pi_div_six]
    norm_num

/-- C6, amended: for any state with zero articulation (trailer heading equal
to tractor heading) and zero steering angle, the derivative yields zero
tractor and trailer heading rates and position rate
`(speed·cos θ, speed·sin θ)` — straight-line motion at constant heading. -/
theorem trailer_model_zero_steering_straight (s : State4)
    (speed wheel_base trailer_len trailer_offset : ℝ) (ha : s.th3 = s.th1) :
    trailer_model s speed 0 wheel_base trailer_len trailer_offset
      = State4.mk (speed * Real.cos s.th1) (speed * Real.sin s.th1) 0 0 := by
  unfold trailer_model
  rw [ha]
  simp [Real.tan_zero]

theorem trailer_model_zero_steering_straight_witness :
    trailer_model ⟨1, 2, 3, 3⟩ 5 0 4 6 7
      = State4.mk (5 * Real.cos 3) (5 * Real.sin 3) 0 0 :=
  trailer_model_zero_steering_straight ⟨1, 2, 3, 3⟩ 5 4 6 7 rfl

/-- C8: no wraparound normalization is applied to headings: after a
successful tick the stored tractor heading, and the stored absolute trailer
heading (tractor rotation plus the trailer's relative rotation), are exactly
the Euler-updated real values converted to degrees, with no modular
reduction. -/
theorem carModel_move_no_heading_wrap (c : CarModel) (solver : Solver)
    (dt : ℝ) (line : (ℝ × ℝ) × (ℝ × ℝ)) (obs : List (ℝ × ℝ × ℝ))
    (sol : Solution)
    (h : c.predict solver [line.1, line.2] obs = some sol) :
    (c.move solver dt line obs).1.rotation
      = degrees (c.stateOf.th1 + (trailer_model c.stateOf c.speed
          (firstPredictedControl sol) c.bodyRectWidth c.trailerRectWidth
          0).th1 * dt) ∧
    (c.move solver dt line obs).1.rotation
        + (c.move solver dt line obs).1.trailerRot
      = degrees (c.stateOf.th3 + (trailer_model c.stateOf c.speed
          (firstPredictedControl sol) c.bodyRectWidth c.trailerRectWidth
          0).th3 * dt) := by
  rw [move_eq_of_some c solver dt line obs sol h]
  refine ⟨rfl, ?_⟩
  show degrees _ + degrees _ = _
  rw [degrees_add_sub]

theorem carModel_move_no_heading_wrap_witness :
    (carC0.move okSolver 0.1 line0 []).1.rotation
      = degrees (carC0.stateOf.th1 + (trailer_model carC0.stateOf
          carC0.speed (firstPredictedControl sol0) carC0.bodyRectWidth
          carC0.trailerRectWidth 0).th1 * 0.1) ∧
    (carC0.move okSolver 0.1 line0 []).1.rotation
        + (carC0.move okSolver 0.1 line0 []).1.trailerRot
      = degrees (carC0.stateOf.th3 + (trailer_model carC0.stateOf
          carC0.speed (firstPredictedControl sol0) carC0.bodyRectWidth
          carC0.trailerRectWidth 0).th3 * 0.1) :=
  carModel_move_no_heading_wrap carC0 okSolver 0.1 line0 [] sol0 rfl
